import Mathlib

/-!
Verification of the FDR record-producer core from `lib/XRay/FDRRecordProducer.cpp`:
the metadata kind classifier (`metadataRecordType`) and the one-record decode step
(`FileBasedRecordProducer::produce`). The byte cursor (`DataExtractor::getU8`) and
the per-variant field initializer (`Record::apply(RecordInitializer)`) are external
collaborators; the cursor is modelled concretely and the initializer is a parameter.
-/

/-- The trace file header; only the `Version` field is consulted by the core. -/
structure XRayFileHeader where
  Version : Nat
deriving DecidableEq, Repr

/-- The concrete record classes the producer can instantiate: the ten metadata
record classes of `MetadataRecordKinds` (with both layouts of the custom-event
record) plus the function record chosen when the discriminant bit 0 is clear. -/
inductive RecordVariant where
  | NewBufferRecord
  | EndBufferRecord
  | NewCPUIDRecord
  | TSCWrapRecord
  | WallclockRecord
  | CustomEventRecord
  | CustomEventRecordV5
  | CallArgRecord
  | BufferExtents
  | TypedEventRecord
  | PIDRecord
  | FunctionRecord
deriving DecidableEq, Repr

/-- Errors produced by the core, one constructor per `createStringError` site,
carrying the values that the source formats into the message; `joined` models
`joinErrors` (the first argument is the original error, the second the added
context), and `initFailure` is an opaque error from the external initializer. -/
inductive XRayError where
  | invalidMetadataRecordType (T : Nat)
  | endOfBufferUnsupported
  | failedReadingOneByte (offset : Nat)
  | unsupportedMetadataRecord (loadedType offset : Nat)
  | joined (original added : XRayError)
  | initFailure (cause : Nat)
deriving DecidableEq, Repr

/-- Result of `metadataRecordType`: a selected record class, an error, or one of
the two `llvm_unreachable` program points (the `EnumEndMarker` switch case and
the fall-through after the switch). -/
inductive ClassifyResult where
  | ok (v : RecordVariant)
  | err (e : XRayError)
  | unreachSentinel
  | unreachUnhandled
deriving DecidableEq, Repr

/-- The end marker of `MetadataRecordKinds`: one past `PidKind = 9`. -/
def EnumEndMarker : Nat := 10

/-- Embedding of `metadataRecordType(Header, T)`. The range check against
`EnumEndMarker` comes first; the switch then dispatches on the kind code, with
version gates for `EndOfBufferKind` (1) and `CustomEventMarkerKind` (5). -/
def metadataRecordType (Header : XRayFileHeader) (T : Nat) : ClassifyResult :=
  if EnumEndMarker ≤ T then
    .err (.invalidMetadataRecordType T)
  else
    match T with
    | 0 => .ok .NewBufferRecord
    | 1 =>
        if 2 ≤ Header.Version then .err .endOfBufferUnsupported
        else .ok .EndBufferRecord
    | 2 => .ok .NewCPUIDRecord
    | 3 => .ok .TSCWrapRecord
    | 4 => .ok .WallclockRecord
    | 5 =>
        if 5 ≤ Header.Version then .ok .CustomEventRecordV5
        else .ok .CustomEventRecord
    | 6 => .ok .CallArgRecord
    | 7 => .ok .BufferExtents
    | 8 => .ok .TypedEventRecord
    | 9 => .ok .PIDRecord
    | 10 => .unreachSentinel
    | _ => .unreachUnhandled

/-- Does a classification land on the `EnumEndMarker` switch case, whose body is
`llvm_unreachable("Invalid MetadataRecordKind")`? -/
def ClassifyResult.hitsSentinel : ClassifyResult → Bool
  | .unreachSentinel => true
  | _ => false

/-- `DataExtractor::getU8(&OffsetPtr)` over an in-memory byte buffer: on success
it returns the byte and advances the offset by one; out of bounds it returns 0
and leaves the offset unchanged. -/
def getU8 (buf : List Nat) (OffsetPtr : Nat) : Nat × Nat :=
  match buf[OffsetPtr]? with
  | some b => (b % 256, OffsetPtr + 1)
  | none => (0, OffsetPtr)

/-- Outcome of `R->apply(RI)` for the external field initializer: `errOut` is the
error if it failed (`none` on success), `newOffset` is where it left the cursor. -/
structure InitOutcome where
  errOut : Option XRayError
  newOffset : Nat

/-- Result of one `produce()` call: a completed record, an error, or a crash
(an `llvm_unreachable` was executed). -/
inductive ProduceResult where
  | ok (v : RecordVariant)
  | error (e : XRayError)
  | crash
deriving DecidableEq, Repr

/-- Tail of `produce()` after a record class `R` has been selected: run the
field initializer at the current offset; on failure return its error unchanged,
on success return the populated record. -/
def finishInit (init : RecordVariant → Nat → InitOutcome) (R : RecordVariant)
    (OffsetPtr : Nat) : ProduceResult × Nat :=
  let out := init R OffsetPtr
  match out.errOut with
  | some e => (.error e, out.newOffset)
  | none => (.ok R, out.newOffset)

/-- Embedding of `FileBasedRecordProducer::produce()`: read the discriminant
byte (failing with the source's "Failed reading one byte" error when the cursor
did not advance); if bit 0 is set classify `FirstByte >> 1`, wrapping a
classifier error with context via `joinErrors`; otherwise select the function
record; then run the field initializer. Returns the result paired with the
final cursor offset. -/
def produce (init : RecordVariant → Nat → InitOutcome) (Header : XRayFileHeader)
    (buf : List Nat) (startPtr : Nat) : ProduceResult × Nat :=
  let PreReadOffset := startPtr
  let r0 := getU8 buf startPtr
  let FirstByte := r0.1
  let OffsetPtr := r0.2
  if OffsetPtr = PreReadOffset then
    (.error (.failedReadingOneByte OffsetPtr), OffsetPtr)
  else if FirstByte % 2 = 1 then
    let LoadedType := FirstByte / 2
    match metadataRecordType Header LoadedType with
    | .err e =>
        (.error (.joined e (.unsupportedMetadataRecord LoadedType PreReadOffset)),
         OffsetPtr)
    | .unreachSentinel => (.crash, OffsetPtr)
    | .unreachUnhandled => (.crash, OffsetPtr)
    | .ok R => finishInit init R OffsetPtr
  else
    finishInit init .FunctionRecord OffsetPtr

/-- Unfolding lemma: kind code 0 selects the new-buffer record. -/
theorem classify_kind_zero (h : XRayFileHeader) :
    metadataRecordType h 0 = .ok .NewBufferRecord := rfl

/-- Unfolding lemma: kind code 1 is gated on the version. -/
theorem classify_kind_one (h : XRayFileHeader) :
    metadataRecordType h 1 =
      if 2 ≤ h.Version then .err .endOfBufferUnsupported
      else .ok .EndBufferRecord := rfl

/-- Unfolding lemma: kind code 2 selects the new-CPU-id record. -/
theorem classify_kind_two (h : XRayFileHeader) :
    metadataRecordType h 2 = .ok .NewCPUIDRecord := rfl

/-- Unfolding lemma: kind code 3 selects the TSC-wrap record. -/
theorem classify_kind_three (h : XRayFileHeader) :
    metadataRecordType h 3 = .ok .TSCWrapRecord := rfl

/-- Unfolding lemma: kind code 4 selects the wallclock record. -/
theorem classify_kind_four (h : XRayFileHeader) :
    metadataRecordType h 4 = .ok .WallclockRecord := rfl

/-- Unfolding lemma: kind code 5 selects a custom-event layout by version. -/
theorem classify_kind_five (h : XRayFileHeader) :
    metadataRecordType h 5 =
      if 5 ≤ h.Version then .ok .CustomEventRecordV5
      else .ok .CustomEventRecord := rfl

/-- Unfolding lemma: kind code 6 selects the call-argument record. -/
theorem classify_kind_six (h : XRayFileHeader) :
    metadataRecordType h 6 = .ok .CallArgRecord := rfl

/-- Unfolding lemma: kind code 7 selects the buffer-extents record. -/
theorem classify_kind_seven (h : XRayFileHeader) :
    metadataRecordType h 7 = .ok .BufferExtents := rfl

/-- Unfolding lemma: kind code 8 selects the typed-event record. -/
theorem classify_kind_eight (h : XRayFileHeader) :
    metadataRecordType h 8 = .ok .TypedEventRecord := rfl

/-- Unfolding lemma: kind code 9 selects the PID record. -/
theorem classify_kind_nine (h : XRayFileHeader) :
    metadataRecordType h 9 = .ok .PIDRecord := rfl

/-- Unfolding lemma: any kind code at or past `EnumEndMarker` is rejected by the
range check with the invalid-metadata-record-type error. -/
theorem classify_kind_ge_ten (h : XRayFileHeader) (T : Nat) (hT : 10 ≤ T) :
    metadataRecordType h T = .err (.invalidMetadataRecordType T) := by
  unfold metadataRecordType EnumEndMarker
  rw [if_pos hT]

/-- A kind code below the range-check bound is never rejected by the range
check: the invalid-metadata-record-type error cannot arise for `T < 10`. -/
theorem classify_lt_ten_not_invalid (h : XRayFileHeader) (T : Nat) (hT : T < 10) :
    metadataRecordType h T ≠ .err (.invalidMetadataRecordType T) := by
  interval_cases T <;> simp [metadataRecordType, EnumEndMarker] <;> split <;> simp

/-- Claim C1 counterexample: at version 2 the classifier applied to kind code 9
succeeds with the PID record variant, so kind code 9 does not fail with the
unknown-metadata-kind error as the claim states. -/
theorem C1_counterexample :
    metadataRecordType ⟨2⟩ 9 = ClassifyResult.ok RecordVariant.PIDRecord ∧
    metadataRecordType ⟨2⟩ 9 ≠
      ClassifyResult.err (XRayError.invalidMetadataRecordType 9) := by
  constructor
  · rfl
  · decide

/-- Claim C1 (amended): for every version, every kind code at or above 10 fails
with the unknown-metadata-kind (invalid metadata record type) error, while kind
code 9 instead succeeds with the PID record variant. -/
theorem C1_theorem (Header : XRayFileHeader) :
    (∀ T : Nat, 10 ≤ T →
        metadataRecordType Header T =
          ClassifyResult.err (XRayError.invalidMetadataRecordType T)) ∧
    metadataRecordType Header 9 = ClassifyResult.ok RecordVariant.PIDRecord :=
  ⟨fun T hT => classify_kind_ge_ten Header T hT, rfl⟩

/-- Claim C1 witness: the amended theorem instantiated at version 3 and kind
code 11. -/
theorem C1_witness :
    metadataRecordType ⟨3⟩ 11 =
      ClassifyResult.err (XRayError.invalidMetadataRecordType 11) :=
  (C1_theorem ⟨3⟩).1 11 (by decide)

/-- Claim C2: for every version, kind code 9 selects the PID record variant,
and the range-check rejection (invalid metadata record type) happens exactly
for kind codes at or above 10. -/
theorem C2_theorem (Header : XRayFileHeader) :
    metadataRecordType Header 9 = ClassifyResult.ok RecordVariant.PIDRecord ∧
    ∀ T : Nat,
      (metadataRecordType Header T =
          ClassifyResult.err (XRayError.invalidMetadataRecordType T)) ↔ 10 ≤ T := by
  refine ⟨rfl, fun T => ⟨fun heq => ?_, fun hT => classify_kind_ge_ten Header T hT⟩⟩
  by_contra hT
  push_neg at hT
  exact classify_lt_ten_not_invalid Header T hT heq

/-- Claim C2 witness: at version 1, kind code 9 yields the PID variant and kind
code 10 is rejected as invalid. -/
theorem C2_witness :
    metadataRecordType ⟨1⟩ 9 = ClassifyResult.ok RecordVariant.PIDRecord ∧
    metadataRecordType ⟨1⟩ 10 =
      ClassifyResult.err (XRayError.invalidMetadataRecordType 10) :=
  ⟨(C2_theorem ⟨1⟩).1, ((C2_theorem ⟨1⟩).2 10).mpr (by decide)⟩

/-- Claim C3: for every version, kind code 1 classifies to the end-of-buffer
record exactly when the version is below 2, and fails with the
end-of-buffer-unsupported error exactly when the version is 2 or above. -/
theorem C3_theorem (Header : XRayFileHeader) :
    (metadataRecordType Header 1 = ClassifyResult.ok RecordVariant.EndBufferRecord
        ↔ Header.Version < 2) ∧
    (metadataRecordType Header 1 = ClassifyResult.err XRayError.endOfBufferUnsupported
        ↔ 2 ≤ Header.Version) := by
  rw [classify_kind_one]
  rcases Nat.lt_or_ge Header.Version 2 with hv | hv
  · rw [if_neg (by omega)]
    constructor
    · exact ⟨fun _ => hv, fun _ => rfl⟩
    · exact ⟨fun h => by simp at h, fun h => by omega⟩
  · rw [if_pos hv]
    constructor
    · exact ⟨fun h => by simp at h, fun h => by omega⟩
    · exact ⟨fun _ => hv, fun _ => rfl⟩

/-- Claim C3 witness: at version 1 kind code 1 yields the end-of-buffer record;
at version 2 it yields the end-of-buffer-unsupported error. -/
theorem C3_witness :
    metadataRecordType ⟨1⟩ 1 = ClassifyResult.ok RecordVariant.EndBufferRecord ∧
    metadataRecordType ⟨2⟩ 1 = ClassifyResult.err XRayError.endOfBufferUnsupported :=
  ⟨(C3_theorem ⟨1⟩).1.mpr (by decide), (C3_theorem ⟨2⟩).2.mpr (by decide)⟩

/-- Claim C4: for every version, kind code 5 always succeeds, selecting the V5
custom-event layout when the version is at least 5 and the legacy layout
otherwise. -/
theorem C4_theorem (Header : XRayFileHeader) :
    metadataRecordType Header 5 =
      ClassifyResult.ok
        (if 5 ≤ Header.Version then RecordVariant.CustomEventRecordV5
         else RecordVariant.CustomEventRecord) := by
  rw [classify_kind_five]
  by_cases h5 : 5 ≤ Header.Version
  · rw [if_pos h5, if_pos h5]
  · rw [if_neg h5, if_neg h5]

/-- Claim C5: for every version, kind codes 0, 2, 3, 4, 6, 7, 8 classify
unconditionally to their fixed record variants. -/
theorem C5_theorem (Header : XRayFileHeader) :
    metadataRecordType Header 0 = ClassifyResult.ok RecordVariant.NewBufferRecord ∧
    metadataRecordType Header 2 = ClassifyResult.ok RecordVariant.NewCPUIDRecord ∧
    metadataRecordType Header 3 = ClassifyResult.ok RecordVariant.TSCWrapRecord ∧
    metadataRecordType Header 4 = ClassifyResult.ok RecordVariant.WallclockRecord ∧
    metadataRecordType Header 6 = ClassifyResult.ok RecordVariant.CallArgRecord ∧
    metadataRecordType Header 7 = ClassifyResult.ok RecordVariant.BufferExtents ∧
    metadataRecordType Header 8 = ClassifyResult.ok RecordVariant.TypedEventRecord :=
  ⟨rfl, rfl, rfl, rfl, rfl, rfl, rfl⟩

/-- Claim C10: for every version and every kind code, the classifier never
reaches the `EnumEndMarker` switch case (whose body is `llvm_unreachable`): the
preceding range check rejects every kind code at or above the sentinel. -/
theorem C10_theorem (Header : XRayFileHeader) (T : Nat) :
    (metadataRecordType Header T).hitsSentinel = false := by
  rcases Nat.lt_or_ge T 10 with hT | hT
  · interval_cases T
    · rw [classify_kind_zero]; rfl
    · rw [classify_kind_one]; split <;> rfl
    · rw [classify_kind_two]; rfl
    · rw [classify_kind_three]; rfl
    · rw [classify_kind_four]; rfl
    · rw [classify_kind_five]; split <;> rfl
    · rw [classify_kind_six]; rfl
    · rw [classify_kind_seven]; rfl
    · rw [classify_kind_eight]; rfl
    · rw [classify_kind_nine]; rfl
  · rw [classify_kind_ge_ten Header T hT]
    rfl

/-- Claim C6: for every discriminant byte whose bit 0 is clear, every header
version and every buffer, `produce` returns a function record whenever the
field initializer succeeds; neither the kind-code bits nor the version are
consulted. -/
theorem C6_theorem (init : RecordVariant → Nat → InitOutcome)
    (Header : XRayFileHeader) (buf : List Nat) (off b n : Nat)
    (hb : buf[off]? = some b) (heven : b % 2 = 0)
    (hinit : init .FunctionRecord (off + 1) = ⟨none, n⟩) :
    produce init Header buf off = (ProduceResult.ok RecordVariant.FunctionRecord, n) := by
  simp only [produce, getU8, hb]
  rw [if_neg (by omega), if_neg (by omega)]
  simp [finishInit, hinit]

/-- Claim C6 witness: buffer starting with byte 0b10 at version 7 and an
initializer that consumes nothing yields a function record. -/
theorem C6_witness :
    produce (fun _ o => ⟨none, o⟩) ⟨7⟩ [2, 5] 0 =
      (ProduceResult.ok RecordVariant.FunctionRecord, 1) :=
  C6_theorem (fun _ o => ⟨none, o⟩) ⟨7⟩ [2, 5] 0 2 1 rfl (by decide) rfl

/-- Claim C7: when no byte is available at the current offset, `produce` fails
with the failed-reading-one-byte error naming the starting offset, and the
cursor offset is unchanged. -/
theorem C7_theorem (init : RecordVariant → Nat → InitOutcome)
    (Header : XRayFileHeader) (buf : List Nat) (off : Nat)
    (hb : buf[off]? = none) :
    produce init Header buf off =
      (ProduceResult.error (XRayError.failedReadingOneByte off), off) := by
  simp [produce, getU8, hb]

/-- Claim C7 witness: an empty buffer at offset 5 yields the truncation error
and leaves the offset at 5. -/
theorem C7_witness :
    produce (fun _ o => ⟨none, o⟩) ⟨1⟩ [] 5 =
      (ProduceResult.error (XRayError.failedReadingOneByte 5), 5) :=
  C7_theorem (fun _ o => ⟨none, o⟩) ⟨1⟩ [] 5 rfl

/-- Claim C8: whenever the classifier fails inside `produce`, the returned
error is the join of the classifier's original error with a context error
naming the offending kind code and the record's starting offset. -/
theorem C8_theorem (init : RecordVariant → Nat → InitOutcome)
    (Header : XRayFileHeader) (buf : List Nat) (off b : Nat) (e : XRayError)
    (hb : buf[off]? = some b) (hlt : b < 256) (hodd : b % 2 = 1)
    (hcls : metadataRecordType Header (b / 2) = .err e) :
    produce init Header buf off =
      (ProduceResult.error
        (XRayError.joined e (XRayError.unsupportedMetadataRecord (b / 2) off)),
       off + 1) := by
  simp only [produce, getU8, hb, Nat.mod_eq_of_lt hlt]
  rw [if_neg (by omega), if_pos hodd, hcls]

/-- Claim C8 witness: byte 0b11 (metadata, kind code 1) at version 2 yields the
classifier's end-of-buffer error joined with context naming kind code 1 and
offset 0. -/
theorem C8_witness :
    produce (fun _ o => ⟨none, o⟩) ⟨2⟩ [3] 0 =
      (ProduceResult.error
        (XRayError.joined XRayError.endOfBufferUnsupported
          (XRayError.unsupportedMetadataRecord 1 0)),
       1) :=
  C8_theorem (fun _ o => ⟨none, o⟩) ⟨2⟩ [3] 0 3 XRayError.endOfBufferUnsupported
    rfl (by decide) (by decide) (by decide)

/-- Claim C9: whenever the field initializer fails on the selected record
(function record for an even discriminant, the classified metadata record for
an odd one), `produce` returns exactly the initializer's error, unwrapped, with
the cursor where the initializer left it. -/
theorem C9_theorem (init : RecordVariant → Nat → InitOutcome)
    (Header : XRayFileHeader) (buf : List Nat) (off b n : Nat)
    (R : RecordVariant) (e : XRayError)
    (hb : buf[off]? = some b) (hlt : b < 256)
    (hsel : b % 2 = 0 ∧ R = .FunctionRecord ∨
            b % 2 = 1 ∧ metadataRecordType Header (b / 2) = .ok R)
    (hinit : init R (off + 1) = ⟨some e, n⟩) :
    produce init Header buf off = (ProduceResult.error e, n) := by
  simp only [produce, getU8, hb, Nat.mod_eq_of_lt hlt]
  rw [if_neg (by omega)]
  rcases hsel with ⟨hev, hR⟩ | ⟨hod, hcls⟩
  · rw [if_neg (by omega)]
    subst hR
    simp [finishInit, hinit]
  · rw [if_pos hod, hcls]
    simp [finishInit, hinit]

/-- Claim C9 witness: an initializer that fails with an opaque cause on the
function record makes `produce` return exactly that error and the initializer's
final offset. -/
theorem C9_witness :
    produce (fun _ o => ⟨some (XRayError.initFailure 7), o + 4⟩) ⟨1⟩ [0] 0 =
      (ProduceResult.error (XRayError.initFailure 7), 5) :=
  C9_theorem (fun _ o => ⟨some (XRayError.initFailure 7), o + 4⟩) ⟨1⟩ [0] 0 0 5
    RecordVariant.FunctionRecord (XRayError.initFailure 7) rfl (by decide)
    (Or.inl ⟨rfl, rfl⟩) rfl
